import Mathlib

/-!
Verification development for the LabJack streaming client.

The definitions below are a shallow embedding of the Python sources
`_steam_read.py` (class `StreamRead`), `_stream_in.py` (class `StreamIn`),
`labjack_device.py` (class `LabJackDevice`) and `LabJack_control.py`
(legacy class `LabJackDevice`).  Python floats are embedded as exact
rationals (`ℚ`), Python ints as `ℤ`/`ℕ`, fallible code as `Except`, and
the blocking read loop as a fuel-indexed step function over a trace of
device responses.
-/

deriving instance DecidableEq for Except

/-- Truncation toward zero, the semantics of Python `int(x)` on a number. -/
def pyIntTrunc (q : ℚ) : ℤ := if 0 ≤ q then ⌊q⌋ else ⌈q⌉

/-- Failure raised by the planning arithmetic.  The Python constructors
perform no explicit validation; the only failure they can raise while
planning is a `ZeroDivisionError` from one of the divisions. -/
inductive PlanError
  | zeroDivision
  deriving DecidableEq, Repr

/-! ### Scan planner of `StreamRead.__init__` (`_steam_read.py` lines 94-117)

Each definition mirrors one assignment of the source, in source order.
`ch` is `num_channels = len(scan_channels)`, `d` is `scan_duration_s`,
`r` is `total_scan_rate_Hz`, `hint` is `scans_per_read_per_channel`. -/

/-- Source line 100: `num_total_scans = int(np.ceil(total_scan_rate_Hz*scan_duration_s))`. -/
def sr_num_total_scans0 (d r : ℚ) : ℤ := ⌈r * d⌉

/-- Source line 104: `num_scans_channel = int(np.ceil(float(num_total_scans)/num_channels))`. -/
def sr_num_scans_channel (ch : ℕ) (d r : ℚ) : ℤ := ⌈(sr_num_total_scans0 d r : ℚ) / (ch : ℚ)⌉

/-- Source line 105: `num_total_scans = num_scans_channel*num_channels`. -/
def sr_num_total_scans (ch : ℕ) (d r : ℚ) : ℤ := sr_num_scans_channel ch d r * ch

/-- Source line 107: `scan_duration = num_total_scans/total_scan_rate_Hz` (recomputed
after rounding `num_total_scans` up to a multiple of `num_channels`). -/
def sr_scan_duration (ch : ℕ) (d r : ℚ) : ℚ := (sr_num_total_scans ch d r : ℚ) / r

/-- Source line 110: `scan_rate_channel = num_scans_channel/scan_duration`. -/
def sr_scan_rate_per_channel (ch : ℕ) (d r : ℚ) : ℚ :=
  (sr_num_scans_channel ch d r : ℚ) / sr_scan_duration ch d r

/-- Source lines 113-114: `scans_per_read_per_channel` resolved from the hint, with
`int(scan_rate_channel*scan_duration_s)` as the default. -/
def sr_scans_per_read (ch : ℕ) (d r : ℚ) (hint : Option ℤ) : ℤ :=
  hint.getD (pyIntTrunc (sr_scan_rate_per_channel ch d r * d))

/-- Source line 116: `num_reads = int(np.ceil(float(num_scans_channel)/scans_per_read_per_channel))`. -/
def sr_num_reads (ch : ℕ) (d r : ℚ) (hint : Option ℤ) : ℤ :=
  ⌈(sr_num_scans_channel ch d r : ℚ) / (sr_scans_per_read ch d r hint : ℚ)⌉

/-- Derived plan stored on a `StreamRead` instance (`_steam_read.py` lines 100-117). -/
structure PlanStreamRead where
  num_total_scans : ℤ
  scan_duration : ℚ
  scan_rate_per_channel : ℚ
  scans_per_read_per_channel : ℤ
  num_reads : ℤ
  deriving DecidableEq, Repr

/-- Planning arithmetic of `StreamRead.__init__`: the chain of assignments of
lines 100-117, raising `ZeroDivisionError` exactly where a Python division by
zero would occur (line 101 divides by the rate, line 104 by the channel count,
line 110 by the adjusted duration, line 116 by the resolved scans-per-read). -/
def plannerStreamRead (ch : ℕ) (d r : ℚ) (hint : Option ℤ) : Except PlanError PlanStreamRead :=
  if r = 0 then .error .zeroDivision
  else if ch = 0 then .error .zeroDivision
  else if sr_scan_duration ch d r = 0 then .error .zeroDivision
  else if sr_scans_per_read ch d r hint = 0 then .error .zeroDivision
  else .ok {
    num_total_scans := sr_num_total_scans ch d r
    scan_duration := sr_scan_duration ch d r
    scan_rate_per_channel := sr_scan_rate_per_channel ch d r
    scans_per_read_per_channel := sr_scans_per_read ch d r hint
    num_reads := sr_num_reads ch d r hint }

/-! ### Scan planner of `StreamIn.__init__` (`_stream_in.py` lines 105-124) -/

/-- Source line 111: `scan_rate_Hz = sampling_rate_Hz/num_channels`. -/
def si_scan_rate (ch : ℕ) (r : ℚ) : ℚ := r / (ch : ℚ)

/-- Source line 112: `num_samples = int(np.ceil(sampling_rate_Hz*duration_s))`. -/
def si_num_samples0 (d r : ℚ) : ℤ := ⌈r * d⌉

/-- Source line 116: `num_scans = int(np.ceil(float(num_samples)/num_channels))`. -/
def si_num_scans (ch : ℕ) (d r : ℚ) : ℤ := ⌈(si_num_samples0 d r : ℚ) / (ch : ℚ)⌉

/-- Source line 117: `duration = num_scans/scan_rate_Hz`. -/
def si_duration (ch : ℕ) (d r : ℚ) : ℚ := (si_num_scans ch d r : ℚ) / si_scan_rate ch r

/-- Source line 118: `num_samples = num_scans*num_channels`. -/
def si_num_samples (ch : ℕ) (d r : ℚ) : ℤ := si_num_scans ch d r * ch

/-- Source lines 120-121: `scans_per_read` resolved from the argument, default
`int(scan_rate_Hz*duration_s)`. -/
def si_scans_per_read (ch : ℕ) (d r : ℚ) (hint : Option ℤ) : ℤ :=
  hint.getD (pyIntTrunc (si_scan_rate ch r * d))

/-- Source line 123: `num_reads = int(np.ceil(float(num_scans)/scans_per_read))`. -/
def si_num_reads (ch : ℕ) (d r : ℚ) (hint : Option ℤ) : ℤ :=
  ⌈(si_num_scans ch d r : ℚ) / (si_scans_per_read ch d r hint : ℚ)⌉

/-- Derived plan stored on a `StreamIn` instance (`_stream_in.py` lines 105-124). -/
structure PlanStreamIn where
  scan_rate : ℚ
  num_samples : ℤ
  num_scans : ℤ
  duration : ℚ
  scans_per_read : ℤ
  num_reads : ℤ
  deriving DecidableEq, Repr

/-- Planning arithmetic of `StreamIn.__init__`: the assignments of lines
105-124, raising `ZeroDivisionError` exactly where a Python division by zero
would occur (line 111 divides by the channel count, line 113 by the rate,
line 123 by the resolved scans-per-read). -/
def plannerStreamIn (ch : ℕ) (d r : ℚ) (hint : Option ℤ) : Except PlanError PlanStreamIn :=
  if ch = 0 then .error .zeroDivision
  else if r = 0 then .error .zeroDivision
  else if si_scans_per_read ch d r hint = 0 then .error .zeroDivision
  else .ok {
    scan_rate := si_scan_rate ch r
    num_samples := si_num_samples ch d r
    num_scans := si_num_scans ch d r
    duration := si_duration ch d r
    scans_per_read := si_scans_per_read ch d r hint
    num_reads := si_num_reads ch d r hint }

/-- Boolean success test for an `Except` result. -/
def exceptOk {ε α : Type} (e : Except ε α) : Bool :=
  match e with
  | .ok _ => true
  | .error _ => false

/-! ### Sentinel handling of skipped samples

A streamed sample is either a real reading or the missing marker `np.nan`
that skipped samples are supposed to become. -/

/-- Value slot of the accumulated stream buffer: a reading or `np.nan`. -/
inductive Sample
  | val (q : ℚ)
  | nan
  deriving DecidableEq, Repr

/-- Per-read buffer processing of `StreamRead._stream` (`_steam_read.py` lines
280-288).  `a_data` is the Python list returned by the device read.  Line 281
counts the `-9999.0` sentinels with `list.count`.  Line 285 executes
`a_data[a_data == -9999] = np.nan`: on a Python *list* the comparison
`a_data == -9999` evaluates to `False`, which indexes element `0`, so the
statement overwrites `a_data[0]` with `nan` (raising `IndexError` on an empty
list) and leaves every sentinel in place. -/
def processStreamRead (a_data : List ℚ) : Except Unit (List Sample × ℕ) :=
  let skipped := a_data.count (-9999 : ℚ)
  match a_data with
  | [] => .error ()
  | _ :: rest => .ok (Sample.nan :: rest.map Sample.val, skipped)

/-- Per-read buffer processing of `StreamIn._stack_stream_reads`
(`_stream_in.py` lines 241-258).  Here `a_data` is a NumPy array, so
`a_data[a_data == -9999.0] = np.nan` replaces exactly the sentinel entries
and `np.sum(a_data == -9999.0)` counts them. -/
def processStreamIn (a_data : List ℚ) : List Sample × ℕ :=
  (a_data.map fun q => if q = -9999 then Sample.nan else Sample.val q,
   a_data.count (-9999 : ℚ))

/-! ### Trigger timeout configuration -/

/-- Trigger-timeout resolution of `StreamRead.__init__` (`_steam_read.py`
lines 124-128) and identically `StreamIn.__init__` (`_stream_in.py` lines
131-135): a non-positive value raises `ValueError`, `None` becomes `0`, and
any positive value is stored as given. -/
def resolve_trigger_timeout (trigger_timeout_s : Option ℚ) : Except String ℚ :=
  match trigger_timeout_s with
  | some t => if t ≤ 0 then .error "ValueError" else .ok t
  | none => .ok 0

/-- Value written to the LJM library key `STREAM_RECEIVE_TIMEOUT_MS` by
`_configure_trigger` (`_steam_read.py` line 180, `_stream_in.py` line 187):
the stored `_trigger_timeout` itself, with no unit conversion applied. -/
def stream_receive_timeout_ms_value (trigger_timeout_s : Option ℚ) : Except String ℚ :=
  resolve_trigger_timeout trigger_timeout_s

/-! ### Python dict staging of register writes -/

/-- Assignment `d[k] = v` on a Python dict rendered as an ordered association
list: an existing key keeps its position and gets the new value, a new key is
appended at the end. -/
def pyDictInsert {κ α : Type} [DecidableEq κ] (d : List (κ × α)) (k : κ) (v : α) :
    List (κ × α) :=
  if d.any fun p => decide (p.1 = k) then
    d.map fun p => if p.1 = k then (k, v) else p
  else d ++ [(k, v)]

/-- Number of entries of a staged dict carrying a given key. -/
def dictKeyCount {κ α : Type} [DecidableEq κ] (d : List (κ × α)) (k : κ) : ℕ :=
  (d.filter fun p => decide (p.1 = k)).length

/-- Value held by a staged dict at a key (first, hence only, occurrence). -/
def dictLookup {κ α : Type} [DecidableEq κ] : List (κ × α) → κ → Option α
  | [], _ => none
  | p :: rest, k => if p.1 = k then some p.2 else dictLookup rest k

/-! ### Trigger configurator (`_configure_trigger`)

Register names are modelled as an inductive of the name-forming expressions
of the source: the literal `"STREAM_TRIGGER_INDEX"` and the f-strings
`f"{trigger_channel}_EF_INDEX"`, `f"{trigger_channel}_EF_CONFIG_A"`,
`f"{trigger_channel}_EF_ENABLE"`, whose distinct suffixes keep the four
names pairwise distinct for any channel. -/

/-- Register name built by `_configure_trigger`. -/
inductive RegName
  | streamTriggerIndex
  | efIndex (channel : String)
  | efConfigA (channel : String)
  | efEnable (channel : String)
  deriving DecidableEq, Repr

/-- Trigger mode enumeration (`LabJackTriggerModeEnum`, declared in the
auxiliary module `_ljm_aux`; its three members are fixed by the three `if`
branches of `_configure_trigger`). -/
inductive LabJackTriggerModeEnum
  | FrequencyIn
  | PulseWidthIn
  | ConditionalReset
  deriving DecidableEq, Repr

/-- Trigger edge enumeration (`LabJackTriggerEdgeEnum` from `_ljm_aux`). -/
inductive LabJackTriggerEdgeEnum
  | Rising
  | Falling
  deriving DecidableEq, Repr

/-- Staged register dict built by `_configure_trigger` (`_steam_read.py`
lines 188-211, identically `_stream_in.py` lines 195-218).  `modeVal` stands
for `trigger_mode.value` and `edgeVal` for `trigger_edge.value`; both live in
`_ljm_aux`, which only the source comments describe (`e.g., 3`, `e.g., 5`,
`e.g., 12`), so they are kept as parameters.  `address` is the resolved
hardware address of the trigger channel. -/
def config_register_trigger (ch : String) (mode : LabJackTriggerModeEnum)
    (edge : LabJackTriggerEdgeEnum) (modeVal edgeVal address : ℚ) :
    List (RegName × ℚ) :=
  let d := pyDictInsert ([] : List (RegName × ℚ)) RegName.streamTriggerIndex address
  let d := pyDictInsert d (RegName.efIndex ch) 3
  let d := pyDictInsert d (RegName.efIndex ch) 4
  let d := if mode = .FrequencyIn then
      pyDictInsert d (RegName.efIndex ch)
        (modeVal + (if edge = .Rising then 0 else 1))
    else d
  let d := if mode = .PulseWidthIn then
      pyDictInsert d (RegName.efIndex ch) modeVal
    else d
  let d := if mode = .ConditionalReset then
      pyDictInsert (pyDictInsert d (RegName.efIndex ch) modeVal)
        (RegName.efConfigA ch) edgeVal
    else d
  d

/-- The same staged dict with the two pre-configure assignments of source
lines 194-195 (`EF_INDEX = 3` then `EF_INDEX = 4`) removed.  Comparing with
`config_register_trigger` expresses that those staged values never reach the
batched device write. -/
def config_register_trigger_no_preconfig (ch : String) (mode : LabJackTriggerModeEnum)
    (edge : LabJackTriggerEdgeEnum) (modeVal edgeVal address : ℚ) :
    List (RegName × ℚ) :=
  let d := pyDictInsert ([] : List (RegName × ℚ)) RegName.streamTriggerIndex address
  let d := if mode = .FrequencyIn then
      pyDictInsert d (RegName.efIndex ch)
        (modeVal + (if edge = .Rising then 0 else 1))
    else d
  let d := if mode = .PulseWidthIn then
      pyDictInsert d (RegName.efIndex ch) modeVal
    else d
  let d := if mode = .ConditionalReset then
      pyDictInsert (pyDictInsert d (RegName.efIndex ch) modeVal)
        (RegName.efConfigA ch) edgeVal
    else d
  d

/-- The extended-feature index selected by the matching mode branch of
`_configure_trigger`: the mode value, plus the edge offset for
`FrequencyIn`. -/
def trigger_ef_index (mode : LabJackTriggerModeEnum) (edge : LabJackTriggerEdgeEnum)
    (modeVal : ℚ) : ℚ :=
  match mode with
  | .FrequencyIn => modeVal + (if edge = .Rising then 0 else 1)
  | .PulseWidthIn => modeVal
  | .ConditionalReset => modeVal

/-! ### `LabJackDevice.configure_register` (`labjack_device.py` lines 205-262) -/

/-- Value of a register keyword argument: a number or a string. -/
inductive RegValue
  | num (q : ℚ)
  | str (s : String)
  deriving DecidableEq, Repr

/-- Vendor constant `ljm.constants.GND` of the LJM library (its identity, not
its magnitude, is what the configuration claims compare against). -/
def LJM_GND : ℚ := 199

/-- Final keyword dict assembled by `configure_register` (lines 233-236):
`kwargs.update({"AIN_ALL_NEGATIVE_CH": ..., "AIN_ALL_RANGE": ...})` merges the
two named parameters into the caller-supplied dict. -/
def configure_register_dict (negCh rng : RegValue) (kwargs : List (String × RegValue)) :
    List (String × RegValue) :=
  pyDictInsert (pyDictInsert kwargs "AIN_ALL_NEGATIVE_CH" negCh) "AIN_ALL_RANGE" rng

/-- String-valued writes issued one by one through `eWriteNameString`
(lines 249-253), in dict iteration order. -/
def configure_register_string_writes (d : List (String × RegValue)) :
    List (String × String) :=
  d.filterMap fun p => match p.2 with | .str s => some (p.1, s) | .num _ => none

/-- Number-valued writes batched into the single `eWriteNames` call
(lines 249-258), in dict iteration order. -/
def configure_register_batched_writes (d : List (String × RegValue)) :
    List (String × ℚ) :=
  d.filterMap fun p => match p.2 with | .num q => some (p.1, q) | .str _ => none

/-- Baseline stream registers staged by `StreamRead._configure`
(`_steam_read.py` lines 148-160; identical in `_stream_in.py`). -/
def stream_config_registers : List (String × RegValue) :=
  [("STREAM_TRIGGER_INDEX", .num 0), ("STREAM_CLOCK_SOURCE", .num 0),
   ("STREAM_SETTLING_US", .num 0), ("STREAM_RESOLUTION_INDEX", .num 0)]

/-! ### Stream driver read loop (`StreamRead._stream`, `_steam_read.py` lines 225-340)

The interaction with the Device Link is modelled as a trace: `reads t` is the
outcome of the `t`-th call to `ljm.eStreamRead`, and the outcomes of
`eStreamStart` / `eStreamStop` are explicit `Except` arguments.  The
`while ir < numReads` loop is driven by fuel bounding the number of device
read calls; exhausted fuel (`none`) stands for a loop still blocked, e.g. a
trigger that never arrives. -/

/-- Low-level exception coming out of a Device Link call or the local buffer
processing: an `ljm.LJMError` with its error code, the `IndexError` raised by
line 285 on an empty buffer, or any other exception. -/
inductive LowExc
  | ljm (code : ℕ)
  | indexError
  | other
  deriving DecidableEq, Repr

/-- Vendor constant `ljm.errorcodes.NO_SCANS_RETURNED` of the LJM library
(only its identity matters to the loop logic). -/
def NO_SCANS_RETURNED : ℕ := 1302

/-- Outcome of one blocking `ljm.eStreamRead` call. -/
inductive ReadOutcome
  | ok (a_data : List ℚ)
  | ljmErr (code : ℕ)
  | otherErr
  deriving DecidableEq, Repr

/-- The `while ir < numReads` read loop of `StreamRead._stream` (lines
262-308): a read failing with `NO_SCANS_RETURNED` is retried without
advancing `ir` (lines 270-273); any other `LJMError` propagates (line 274); a
non-LJM exception propagates to the outer handler; a successful read is
processed by `processStreamRead` and appended to the accumulator, and `ir`
advances (lines 276-308). -/
def stream_read_loop (reads : ℕ → ReadOutcome) (numReads : ℕ) :
    ℕ → ℕ → ℕ → List (List Sample) → Option (Except LowExc (List (List Sample)))
  | 0, _, _, _ => none
  | fuel + 1, t, ir, acc =>
    if numReads ≤ ir then some (.ok acc)
    else
      match reads t with
      | .ljmErr c =>
        if c = NO_SCANS_RETURNED then stream_read_loop reads numReads fuel (t + 1) ir acc
        else some (.error (.ljm c))
      | .otherErr => some (.error .other)
      | .ok a_data =>
        match processStreamRead a_data with
        | .error _ => some (.error .indexError)
        | .ok pr => stream_read_loop reads numReads fuel (t + 1) (ir + 1) (acc ++ [pr.1])

/-- Exception classes raised by the streaming code (both defined in the
auxiliary modules; `_steam_read.py` raises only `LabJackStreamReadError`,
`LabJack_control.py` raises `LabJackStreamingError` around its stop call). -/
inductive ErrClass
  | labJackStreamReadError
  | labJackStreamingError
  deriving DecidableEq, Repr

/-- Wrapped exception without chaining context: class, message and the
`from`-chained low-level cause (Python `__cause__`). -/
structure RaisedCore where
  cls : ErrClass
  msg : String
  cause : LowExc
  deriving DecidableEq, Repr

/-- Raised exception together with the implicitly chained in-flight exception
(Python `__context__`) that was active when it was raised. -/
structure Raised where
  core : RaisedCore
  context : Option RaisedCore
  deriving DecidableEq, Repr

/-- Exception wrapping of the `except` clauses of `StreamRead._stream`
(lines 244-247, 312-315 and 321-324): an `LJMError` becomes
`LabJackStreamReadError("LabJack library-level error")`, anything else
`LabJackStreamReadError("Non LabJack library-level error")`, in both cases
with the original exception as `__cause__`. -/
def wrapStreamReadCore (e : LowExc) : RaisedCore :=
  { cls := .labJackStreamReadError,
    msg := match e with
      | .ljm _ => "LabJack library-level error"
      | _ => "Non LabJack library-level error",
    cause := e }

/-- Full control flow of `StreamRead._stream` (lines 242-325): start, read
loop, and the `finally` block that always issues one `ljm.eStreamStop` call
once the loop has ended.  The first component is the operation outcome
(`none` while the loop is still blocked); the second counts the stop-stream
calls issued to the Device Link.  A stop failure raised inside `finally`
replaces the in-flight loop exception, which survives as its context. -/
def stream_read_stream (start : Except LowExc Unit) (reads : ℕ → ReadOutcome)
    (numReads fuel : ℕ) (stop : Except LowExc Unit) :
    Option (Except Raised (List (List Sample))) × ℕ :=
  match start with
  | .error e => (some (.error ⟨wrapStreamReadCore e, none⟩), 0)
  | .ok _ =>
    match stream_read_loop reads numReads fuel 0 0 [] with
    | none => (none, 0)
    | some (.ok acc) =>
      match stop with
      | .ok _ => (some (.ok acc), 1)
      | .error s => (some (.error ⟨wrapStreamReadCore s, none⟩), 1)
    | some (.error e) =>
      match stop with
      | .ok _ => (some (.error ⟨wrapStreamReadCore e, none⟩), 1)
      | .error s => (some (.error ⟨wrapStreamReadCore s, some (wrapStreamReadCore e)⟩), 1)

/-! ### Legacy stream loop (`LabJackDevice.stream`, `LabJack_control.py` lines 222-307) -/

/-- Terminal error of the legacy `stream` method: a raw exception propagating
out of the read loop (lines 262-266 re-raise the `LJMError` unwrapped), or the
`LabJackStreamingError` wrapping a stop failure (lines 300-305). -/
inductive ControlErr
  | raw (e : LowExc)
  | streamingError (cause : LowExc)
  deriving DecidableEq, Repr

/-- The `while i <= num_reads` loop of `LabJack_control.py` (lines 238-266):
`i` starts at `1`; a successful read advances `i`; `NO_SCANS_RETURNED`
retries; any other `LJMError` is re-raised, and a non-LJM exception is not
caught at all.  Returns the number of successful reads. -/
def control_stream_loop (reads : ℕ → ReadOutcome) (numReads : ℕ) :
    ℕ → ℕ → ℕ → Option (Except LowExc ℕ)
  | 0, _, _ => none
  | fuel + 1, t, i =>
    if i ≤ numReads then
      match reads t with
      | .ok _ => control_stream_loop reads numReads fuel (t + 1) (i + 1)
      | .ljmErr c =>
        if c = NO_SCANS_RETURNED then control_stream_loop reads numReads fuel (t + 1) i
        else some (.error (.ljm c))
      | .otherErr => some (.error .other)
    else some (.ok (i - 1))

/-- Control flow of the legacy `LabJackDevice.stream` after a successful
stream start (lines 238-307): the loop has no enclosing `try/finally`, so a
read error propagates immediately and `ljm.eStreamStop` (line 298) runs only
on the success path.  Second component counts the stop-stream calls. -/
def control_stream (reads : ℕ → ReadOutcome) (numReads fuel : ℕ)
    (stop : Except LowExc Unit) : Option (Except ControlErr ℕ) × ℕ :=
  match control_stream_loop reads numReads fuel 0 1 with
  | none => (none, 0)
  | some (.error e) => (some (.error (.raw e)), 0)
  | some (.ok okReads) =>
    match stop with
    | .ok _ => (some (.ok okReads), 1)
    | .error s => (some (.error (.streamingError s)), 1)

/-! ### Concrete evaluations and general lemmas -/

/-- Evaluation helper: a rational ceiling equals `n` once `n - 1 < q ≤ n`. -/
theorem ceil_rat_eq {q : ℚ} {n : ℤ} (h1 : (n : ℚ) - 1 < q) (h2 : q ≤ (n : ℚ)) : ⌈q⌉ = n :=
  Int.ceil_eq_iff.mpr ⟨h1, h2⟩

/-- Evaluation helper: a rational floor equals `n` once `n ≤ q < n + 1`. -/
theorem floor_rat_eq {q : ℚ} {n : ℤ} (h1 : (n : ℚ) ≤ q) (h2 : q < (n : ℚ) + 1) : ⌊q⌋ = n :=
  Int.floor_eq_iff.mpr ⟨h1, h2⟩

/-- Evaluation of the `StreamRead` planner on the scenario input
`channel_count = 2`, `duration = 1 s`, `total rate = 100 kHz`, no hint. -/
theorem sr_eval_default : plannerStreamRead 2 1 100000 none =
    .ok { num_total_scans := 100000, scan_duration := 1, scan_rate_per_channel := 50000,
          scans_per_read_per_channel := 50000, num_reads := 1 } := by
  have h0 : sr_num_total_scans0 1 100000 = 100000 := by
    unfold sr_num_total_scans0
    apply ceil_rat_eq <;> norm_num
  have h1 : sr_num_scans_channel 2 1 100000 = 50000 := by
    unfold sr_num_scans_channel
    rw [h0]
    apply ceil_rat_eq <;> norm_num
  have h2 : sr_num_total_scans 2 1 100000 = 100000 := by
    unfold sr_num_total_scans
    rw [h1]; norm_num
  have h3 : sr_scan_duration 2 1 100000 = 1 := by
    unfold sr_scan_duration
    rw [h2]; norm_num
  have h4 : sr_scan_rate_per_channel 2 1 100000 = 50000 := by
    unfold sr_scan_rate_per_channel
    rw [h1, h3]; norm_num
  have h5 : sr_scans_per_read 2 1 100000 none = 50000 := by
    unfold sr_scans_per_read pyIntTrunc
    simp only [Option.getD_none]
    rw [h4, if_pos (by norm_num)]
    apply floor_rat_eq <;> norm_num
  have h6 : sr_num_reads 2 1 100000 none = 1 := by
    unfold sr_num_reads
    rw [h1, h5]
    apply ceil_rat_eq <;> norm_num
  unfold plannerStreamRead
  rw [if_neg (by norm_num), if_neg (by norm_num), if_neg (by rw [h3]; norm_num),
    if_neg (by rw [h5]; norm_num), h2, h3, h4, h5, h6]

/-- Evaluation of the `StreamIn` planner on the same scenario input. -/
theorem si_eval_default : plannerStreamIn 2 1 100000 none =
    .ok { scan_rate := 50000, num_samples := 100000, num_scans := 50000, duration := 1,
          scans_per_read := 50000, num_reads := 1 } := by
  have h0 : si_num_samples0 1 100000 = 100000 := by
    unfold si_num_samples0
    apply ceil_rat_eq <;> norm_num
  have hrate : si_scan_rate 2 100000 = 50000 := by
    unfold si_scan_rate; norm_num
  have h1 : si_num_scans 2 1 100000 = 50000 := by
    unfold si_num_scans
    rw [h0]
    apply ceil_rat_eq <;> norm_num
  have h2 : si_num_samples 2 1 100000 = 100000 := by
    unfold si_num_samples
    rw [h1]; norm_num
  have h3 : si_duration 2 1 100000 = 1 := by
    unfold si_duration
    rw [h1, hrate]; norm_num
  have h5 : si_scans_per_read 2 1 100000 none = 50000 := by
    unfold si_scans_per_read pyIntTrunc
    simp only [Option.getD_none]
    rw [hrate, if_pos (by norm_num)]
    apply floor_rat_eq <;> norm_num
  have h6 : si_num_reads 2 1 100000 none = 1 := by
    unfold si_num_reads
    rw [h1, h5]
    apply ceil_rat_eq <;> norm_num
  unfold plannerStreamIn
  rw [if_neg (by norm_num), if_neg (by norm_num), if_neg (by rw [h5]; norm_num),
    hrate, h2, h1, h3, h5, h6]

/-- Length invariant of the read loop: a run that ends in success has
consumed exactly the remaining planned number of successful reads. -/
theorem stream_read_loop_length (reads : ℕ → ReadOutcome) (numReads : ℕ) :
    ∀ fuel t ir acc out, ir ≤ numReads →
      stream_read_loop reads numReads fuel t ir acc = some (.ok out) →
      out.length + ir = acc.length + numReads := by
  intro fuel
  induction fuel with
  | zero => intro t ir acc out _ h; simp [stream_read_loop] at h
  | succ fuel ih =>
    intro t ir acc out hle h
    rw [stream_read_loop] at h
    by_cases hge : numReads ≤ ir
    · rw [if_pos hge] at h
      have hacc : acc = out := by simpa using h
      subst hacc
      omega
    · rw [if_neg hge] at h
      cases hr : reads t with
      | ljmErr c =>
        rw [hr] at h
        dsimp only at h
        by_cases hc : c = NO_SCANS_RETURNED
        · rw [if_pos hc] at h
          exact ih (t + 1) ir acc out hle h
        · rw [if_neg hc] at h
          simp at h
      | otherErr =>
        rw [hr] at h
        simp at h
      | ok a_data =>
        rw [hr] at h
        dsimp only at h
        cases hp : processStreamRead a_data with
        | error e =>
          rw [hp] at h
          simp at h
        | ok pr =>
          rw [hp] at h
          dsimp only at h
          have := ih (t + 1) (ir + 1) (acc ++ [pr.1]) out (by omega) h
          simp only [List.length_append, List.length_cons, List.length_nil] at this
          omega

/-- An error surfacing from the read loop never carries the transient
`NO_SCANS_RETURNED` code. -/
theorem stream_read_loop_error_code (reads : ℕ → ReadOutcome) (numReads : ℕ) :
    ∀ fuel t ir acc c,
      stream_read_loop reads numReads fuel t ir acc = some (.error (.ljm c)) →
      c ≠ NO_SCANS_RETURNED := by
  intro fuel
  induction fuel with
  | zero => intro t ir acc c h; simp [stream_read_loop] at h
  | succ fuel ih =>
    intro t ir acc c h
    rw [stream_read_loop] at h
    by_cases hge : numReads ≤ ir
    · rw [if_pos hge] at h; simp at h
    · rw [if_neg hge] at h
      cases hr : reads t with
      | ljmErr c' =>
        rw [hr] at h
        dsimp only at h
        by_cases hc : c' = NO_SCANS_RETURNED
        · rw [if_pos hc] at h
          exact ih (t + 1) ir acc c h
        · rw [if_neg hc] at h
          have : c' = c := by simpa using h
          subst this
          exact hc
      | otherErr =>
        rw [hr] at h
        simp at h
      | ok a_data =>
        rw [hr] at h
        dsimp only at h
        cases hp : processStreamRead a_data with
        | error e =>
          rw [hp] at h
          simp at h
        | ok pr =>
          rw [hp] at h
          dsimp only at h
          exact ih (t + 1) (ir + 1) (acc ++ [pr.1]) c h

/-- C6: in the streaming read loop, a read that signals the "no scans yet"
condition is retried without incrementing the iteration counter `ir` and
never surfaces to the caller as an error, and a loop run that returns
successfully from the initial state has accumulated exactly the planned
`numReads` successful reads. -/
theorem claim_C6 :
    (∀ (reads : ℕ → ReadOutcome) (numReads fuel : ℕ) (out : List (List Sample)),
        stream_read_loop reads numReads fuel 0 0 [] = some (.ok out) →
          out.length = numReads)
    ∧ (∀ (reads : ℕ → ReadOutcome) (numReads fuel t ir : ℕ)
        (acc : List (List Sample)) (c : ℕ),
        stream_read_loop reads numReads fuel t ir acc = some (.error (.ljm c)) →
          c ≠ NO_SCANS_RETURNED)
    ∧ (∀ (reads : ℕ → ReadOutcome) (numReads fuel t ir : ℕ)
        (acc : List (List Sample)), ir < numReads →
        reads t = .ljmErr NO_SCANS_RETURNED →
        stream_read_loop reads numReads (fuel + 1) t ir acc =
          stream_read_loop reads numReads fuel (t + 1) ir acc) := by
  refine ⟨?_, ?_, ?_⟩
  · intro reads numReads fuel out h
    have := stream_read_loop_length reads numReads fuel 0 0 [] out (Nat.zero_le _) h
    simpa using this
  · intro reads numReads fuel t ir acc c h
    exact stream_read_loop_error_code reads numReads fuel t ir acc c h
  · intro reads numReads fuel t ir acc hlt hread
    rw [stream_read_loop, if_neg (by omega), hread]
    dsimp only
    rw [if_pos rfl]

/-- Witness for C6 at concrete inputs: a two-read trace accumulates two
buffers, a code-5 `LJMError` surfaces with a non-transient code, and a
"no scans yet" response leaves the iteration counter at `ir = 0`. -/
theorem claim_C6_witness :
    ([[Sample.nan], [Sample.nan]] : List (List Sample)).length = 2 ∧
    (5 : ℕ) ≠ NO_SCANS_RETURNED ∧
    stream_read_loop (fun _ => .ljmErr NO_SCANS_RETURNED) 2 1 0 0 [] =
      stream_read_loop (fun _ => .ljmErr NO_SCANS_RETURNED) 2 0 1 0 [] :=
  ⟨claim_C6.1 (fun _ => .ok [1]) 2 3 [[Sample.nan], [Sample.nan]] (by decide),
   claim_C6.2.1 (fun _ => .ljmErr 5) 1 1 0 0 [] 5 (by decide),
   claim_C6.2.2 (fun _ => .ljmErr NO_SCANS_RETURNED) 2 0 0 0 [] (by decide) (by decide)⟩

/-- C1 (amended): in `StreamRead._stream` the `finally` block issues exactly
one stop-stream call whenever the read loop terminates, whatever its outcome;
in the legacy `LabJack_control.LabJackDevice.stream` the stop call is issued
exactly once when the loop completes all planned reads but not at all when a
read raises a non-transient error. -/
theorem claim_C1_amended :
    (∀ (reads : ℕ → ReadOutcome) (numReads fuel : ℕ) (stop : Except LowExc Unit),
        (stream_read_stream (.ok ()) reads numReads fuel stop).1.isSome →
          (stream_read_stream (.ok ()) reads numReads fuel stop).2 = 1)
    ∧ (∀ (reads : ℕ → ReadOutcome) (numReads fuel : ℕ) (stop : Except LowExc Unit) (k : ℕ),
        control_stream_loop reads numReads fuel 0 1 = some (.ok k) →
          (control_stream reads numReads fuel stop).2 = 1)
    ∧ (∀ (reads : ℕ → ReadOutcome) (numReads fuel : ℕ) (stop : Except LowExc Unit)
        (e : LowExc),
        control_stream_loop reads numReads fuel 0 1 = some (.error e) →
          (control_stream reads numReads fuel stop).2 = 0) := by
  refine ⟨?_, ?_, ?_⟩
  · intro reads numReads fuel stop hs
    unfold stream_read_stream at hs ⊢
    dsimp only at hs ⊢
    cases hl : stream_read_loop reads numReads fuel 0 0 [] with
    | none => rw [hl] at hs; simp at hs
    | some res =>
      cases res <;> cases stop <;> rfl
  · intro reads numReads fuel stop k h
    unfold control_stream
    rw [h]
    cases stop <;> rfl
  · intro reads numReads fuel stop e h
    unfold control_stream
    rw [h]

/-- Counterexample for C1 as stated: in the legacy `stream`, a read failing
with `LJMError` code 5 on the first iteration propagates with zero stop-stream
calls issued, not one. -/
theorem claim_C1_counterexample :
    control_stream (fun _ => .ljmErr 5) 1 3 (.ok ()) =
      (some (.error (.raw (.ljm 5))), 0) ∧ (0 : ℕ) ≠ 1 := by
  exact ⟨by decide, by decide⟩

/-- Witness for C1 (amended) at concrete inputs. -/
theorem claim_C1_witness :
    (stream_read_stream (.ok ()) (fun _ => .ok [1]) 1 2 (.ok ())).2 = 1 ∧
    (control_stream (fun _ => .ok [1]) 1 2 (.ok ())).2 = 1 ∧
    (control_stream (fun _ => .ljmErr 7) 1 2 (.ok ())).2 = 0 :=
  ⟨claim_C1_amended.1 (fun _ => .ok [1]) 1 2 (.ok ()) (by decide),
   claim_C1_amended.2.1 (fun _ => .ok [1]) 1 2 (.ok ()) 1 (by decide),
   claim_C1_amended.2.2 (fun _ => .ljmErr 7) 1 2 (.ok ()) (.ljm 7) (by decide)⟩

/-- C7 (amended): when a read error has ended the loop and the stop call in
the `finally` block also fails, `StreamRead._stream` raises a
`LabJackStreamReadError` (the code defines no separate `StreamStopError`)
whose `__cause__` is the stop failure, while the earlier wrapped read error
survives as the implicit `__context__` of the raised exception, so neither
failure is lost. -/
theorem claim_C7_amended :
    ∀ (reads : ℕ → ReadOutcome) (numReads fuel : ℕ) (e s : LowExc),
      stream_read_loop reads numReads fuel 0 0 [] = some (.error e) →
      stream_read_stream (.ok ()) reads numReads fuel (.error s) =
        (some (.error ⟨wrapStreamReadCore s, some (wrapStreamReadCore e)⟩), 1) := by
  intro reads numReads fuel e s h
  unfold stream_read_stream
  dsimp only
  rw [h]

/-- Counterexample for C7 as stated: with a read error (`LJMError` code 5)
followed by a stop error (`LJMError` code 7), the raised exception class is
`LabJackStreamReadError` and its recorded cause is the stop failure
`.ljm 7`, not the earlier read error `.ljm 5` (which is only kept as
context). -/
theorem claim_C7_counterexample :
    (stream_read_stream (.ok ()) (fun _ => .ljmErr 5) 1 1 (.error (.ljm 7))).1 =
      some (.error
        { core := { cls := .labJackStreamReadError,
                    msg := "LabJack library-level error", cause := .ljm 7 },
          context := some { cls := .labJackStreamReadError,
                            msg := "LabJack library-level error", cause := .ljm 5 } }) ∧
    LowExc.ljm 7 ≠ LowExc.ljm 5 := by
  exact ⟨by decide, by decide⟩

/-- Witness for C7 (amended) at a concrete input. -/
theorem claim_C7_witness :
    stream_read_stream (.ok ()) (fun _ => .otherErr) 1 1 (.error .other) =
      (some (.error ⟨wrapStreamReadCore .other, some (wrapStreamReadCore .other)⟩), 1) :=
  claim_C7_amended (fun _ => .otherErr) 1 1 .other .other (by decide)

/-- C2: evaluation of the per-read sentinel handling at the raw buffer
`[1.0, -9999.0]`.  `StreamRead._stream` (the buggy list variant) returns the
buffer with element 0 overwritten by `nan` and the sentinel at index 1 left
in place (though the skipped count, 1, is correct), while
`StreamIn._stack_stream_reads` (the NumPy variant) converts exactly the
sentinel as the claim demands. -/
theorem claim_C2_eval :
    processStreamRead [1, -9999] = .ok ([Sample.nan, Sample.val (-9999)], 1) ∧
    processStreamIn [1, -9999] = ([Sample.val 1, Sample.nan], 1) := by
  exact ⟨by decide, by decide⟩

/-- C4: evaluation of the trigger-timeout configuration.  `timeout_s = None`
writes `0` to `STREAM_RECEIVE_TIMEOUT_MS` as the claim states, but
`timeout_s = 2.5` writes `2.5` unconverted — not the claimed `2500` ms. -/
theorem claim_C4_eval :
    stream_receive_timeout_ms_value none = .ok 0 ∧
    stream_receive_timeout_ms_value (some (5 / 2)) = .ok (5 / 2) ∧
    (5 / 2 : ℚ) ≠ 2500 := by
  refine ⟨rfl, ?_, by norm_num⟩
  unfold stream_receive_timeout_ms_value resolve_trigger_timeout
  dsimp only
  rw [if_neg (by norm_num)]

/-- C9: the register writes of `_configure_trigger` are staged in a dict, so
the repeated assignments to the `{trigger_channel}_EF_INDEX` key overwrite
each other: for every trigger mode the batched configure call carries exactly
one `EF_INDEX` entry, its value is the last one assigned (the matching mode
branch's index), and the staged dict is identical to the one built without
the pre-configure assignments of the values 3 and 4, which therefore are
never written. -/
theorem claim_C9 :
    ∀ (ch : String) (mode : LabJackTriggerModeEnum) (edge : LabJackTriggerEdgeEnum)
      (modeVal edgeVal address : ℚ),
      dictKeyCount (config_register_trigger ch mode edge modeVal edgeVal address)
          (RegName.efIndex ch) = 1
      ∧ dictLookup (config_register_trigger ch mode edge modeVal edgeVal address)
          (RegName.efIndex ch) = some (trigger_ef_index mode edge modeVal)
      ∧ config_register_trigger ch mode edge modeVal edgeVal address =
          config_register_trigger_no_preconfig ch mode edge modeVal edgeVal address := by
  intro ch mode edge modeVal edgeVal address
  cases mode <;> cases edge <;>
    simp [config_register_trigger, config_register_trigger_no_preconfig, pyDictInsert,
      dictKeyCount, dictLookup, trigger_ef_index, List.filter, List.any]

/-- Inserting a key absent from a staged dict appends the pair at the end. -/
theorem pyDictInsert_of_fresh {κ α : Type} [DecidableEq κ] (d : List (κ × α)) (k : κ) (v : α)
    (h : ∀ p ∈ d, p.1 ≠ k) : pyDictInsert d k v = d ++ [(k, v)] := by
  unfold pyDictInsert
  rw [if_neg]
  simp only [List.any_eq_true, decide_eq_true_eq, not_exists]
  intro p
  simp only [not_and]
  intro hp
  exact h p hp

/-- C10: every call to `LabJackDevice.configure_register` merges
`AIN_ALL_NEGATIVE_CH` (default `ljm.constants.GND`) and `AIN_ALL_RANGE`
(default `10.0`) into the staged dict, so with the default parameter values
the batched `eWriteNames` call writes those two registers alongside every
caller-supplied numeric register, while caller-supplied string registers go
untouched to the `eWriteNameString` path. -/
theorem claim_C10 :
    ∀ kwargs : List (String × RegValue),
      (∀ p ∈ kwargs, p.1 ≠ "AIN_ALL_NEGATIVE_CH" ∧ p.1 ≠ "AIN_ALL_RANGE") →
      ("AIN_ALL_NEGATIVE_CH", LJM_GND) ∈ configure_register_batched_writes
          (configure_register_dict (.num LJM_GND) (.num 10) kwargs)
      ∧ ("AIN_ALL_RANGE", (10 : ℚ)) ∈ configure_register_batched_writes
          (configure_register_dict (.num LJM_GND) (.num 10) kwargs)
      ∧ (∀ (k : String) (q : ℚ), (k, RegValue.num q) ∈ kwargs →
          (k, q) ∈ configure_register_batched_writes
            (configure_register_dict (.num LJM_GND) (.num 10) kwargs))
      ∧ (∀ (k s : String), (k, RegValue.str s) ∈ kwargs →
          (k, s) ∈ configure_register_string_writes
            (configure_register_dict (.num LJM_GND) (.num 10) kwargs)) := by
  intro kwargs h
  have hd : configure_register_dict (.num LJM_GND) (.num 10) kwargs =
      kwargs ++ [("AIN_ALL_NEGATIVE_CH", .num LJM_GND), ("AIN_ALL_RANGE", .num 10)] := by
    unfold configure_register_dict
    rw [pyDictInsert_of_fresh _ _ _ (fun p hp => (h p hp).1)]
    rw [pyDictInsert_of_fresh]
    · simp
    · intro p hp
      rcases List.mem_append.mp hp with h1 | h2
      · exact (h p h1).2
      · simp only [List.mem_singleton] at h2
        subst h2
        decide
  rw [hd]
  unfold configure_register_batched_writes configure_register_string_writes
  rw [List.filterMap_append, List.filterMap_append]
  refine ⟨?_, ?_, ?_, ?_⟩
  · apply List.mem_append_right
    decide
  · apply List.mem_append_right
    decide
  · intro k q hk
    apply List.mem_append_left
    exact List.mem_filterMap.mpr ⟨(k, RegValue.num q), hk, rfl⟩
  · intro k s hk
    apply List.mem_append_left
    exact List.mem_filterMap.mpr ⟨(k, RegValue.str s), hk, rfl⟩

/-- Witness for C10 on the baseline stream-configuration call of
`StreamRead._configure`: the two analog defaults are rewritten alongside the
caller-supplied `STREAM_TRIGGER_INDEX`. -/
theorem claim_C10_witness :
    ("AIN_ALL_NEGATIVE_CH", LJM_GND) ∈ configure_register_batched_writes
        (configure_register_dict (.num LJM_GND) (.num 10) stream_config_registers) ∧
    ("AIN_ALL_RANGE", (10 : ℚ)) ∈ configure_register_batched_writes
        (configure_register_dict (.num LJM_GND) (.num 10) stream_config_registers) ∧
    ("STREAM_TRIGGER_INDEX", (0 : ℚ)) ∈ configure_register_batched_writes
        (configure_register_dict (.num LJM_GND) (.num 10) stream_config_registers) := by
  obtain ⟨h1, h2, h3, _⟩ := claim_C10 stream_config_registers (by decide)
  exact ⟨h1, h2, h3 "STREAM_TRIGGER_INDEX" 0 (by decide)⟩

/-- C3: planning a stream with 2 channels, 1 s duration, 100 kHz total rate
and no scans-per-read hint yields 100000 total scans, a 50 kHz per-channel
rate, 50000 scans per read and a single read, in both stream classes. -/
theorem claim_C3 :
    plannerStreamRead 2 1 100000 none =
      .ok { num_total_scans := 100000, scan_duration := 1, scan_rate_per_channel := 50000,
            scans_per_read_per_channel := 50000, num_reads := 1 } ∧
    plannerStreamIn 2 1 100000 none =
      .ok { scan_rate := 50000, num_samples := 100000, num_scans := 50000, duration := 1,
            scans_per_read := 50000, num_reads := 1 } :=
  ⟨sr_eval_default, si_eval_default⟩

/-- C5 (amended): the constructors perform no plan validation and define no
`InvalidPlanError`; planning fails only with `ZeroDivisionError`, exactly
when a divisor is zero — the channel count, the rate, the adjusted duration
(`StreamRead` only) or the resolved scans-per-read. -/
theorem claim_C5_amended :
    (∀ (ch : ℕ) (d r : ℚ) (hint : Option ℤ),
        exceptOk (plannerStreamRead ch d r hint) = false ↔
          r = 0 ∨ ch = 0 ∨ sr_scan_duration ch d r = 0 ∨ sr_scans_per_read ch d r hint = 0)
    ∧ (∀ (ch : ℕ) (d r : ℚ) (hint : Option ℤ),
        exceptOk (plannerStreamIn ch d r hint) = false ↔
          ch = 0 ∨ r = 0 ∨ si_scans_per_read ch d r hint = 0) := by
  constructor
  · intro ch d r hint
    unfold plannerStreamRead
    split_ifs with h1 h2 h3 h4 <;> simp_all [exceptOk]
  · intro ch d r hint
    unfold plannerStreamIn
    split_ifs with h1 h2 h3 <;> simp_all [exceptOk]

/-- Counterexample for C5 as stated: with `channel_count = 1`,
`requested_duration_s = -1` (non-positive) and `total_rate_hz = 100000`, the
`StreamRead` constructor raises nothing at all — it computes a degenerate
plan and proceeds to device I/O. -/
theorem claim_C5_counterexample :
    plannerStreamRead 1 (-1) 100000 none =
      .ok { num_total_scans := -100000, scan_duration := -1, scan_rate_per_channel := 100000,
            scans_per_read_per_channel := -100000, num_reads := 1 } ∧
    (-1 : ℚ) < 0 := by
  refine ⟨?_, by norm_num⟩
  have h0 : sr_num_total_scans0 (-1) 100000 = -100000 := by
    unfold sr_num_total_scans0
    apply ceil_rat_eq <;> norm_num
  have h1 : sr_num_scans_channel 1 (-1) 100000 = -100000 := by
    unfold sr_num_scans_channel
    rw [h0]
    apply ceil_rat_eq <;> norm_num
  have h2 : sr_num_total_scans 1 (-1) 100000 = -100000 := by
    unfold sr_num_total_scans
    rw [h1]; norm_num
  have h3 : sr_scan_duration 1 (-1) 100000 = -1 := by
    unfold sr_scan_duration
    rw [h2]; norm_num
  have h4 : sr_scan_rate_per_channel 1 (-1) 100000 = 100000 := by
    unfold sr_scan_rate_per_channel
    rw [h1, h3]; norm_num
  have h5 : sr_scans_per_read 1 (-1) 100000 none = -100000 := by
    unfold sr_scans_per_read pyIntTrunc
    simp only [Option.getD_none]
    rw [h4, if_neg (by norm_num)]
    apply ceil_rat_eq <;> norm_num
  have h6 : sr_num_reads 1 (-1) 100000 none = 1 := by
    unfold sr_num_reads
    rw [h1, h5]
    apply ceil_rat_eq <;> norm_num
  unfold plannerStreamRead
  rw [if_neg (by norm_num), if_neg (by norm_num), if_neg (by rw [h3]; norm_num),
    if_neg (by rw [h5]; norm_num), h2, h3, h4, h5, h6]

/-- Total scan count of the `StreamRead` planner is a multiple of the
channel count. -/
theorem sr_total_mod (ch : ℕ) (d r : ℚ) : sr_num_total_scans ch d r % (ch : ℤ) = 0 := by
  unfold sr_num_total_scans
  exact Int.mul_emod_left _ _

/-- With a positive resolved scans-per-read, the planned reads cover the
total scan count. -/
theorem sr_cover (ch : ℕ) (d r : ℚ) (hint : Option ℤ)
    (hspr : 0 < sr_scans_per_read ch d r hint) :
    sr_num_total_scans ch d r ≤
      sr_scans_per_read ch d r hint * ch * sr_num_reads ch d r hint := by
  have hsprQ : (0 : ℚ) < (sr_scans_per_read ch d r hint : ℚ) := by exact_mod_cast hspr
  have h1 : (sr_num_scans_channel ch d r : ℚ) / (sr_scans_per_read ch d r hint : ℚ) ≤
      (sr_num_reads ch d r hint : ℚ) := by
    unfold sr_num_reads
    exact Int.le_ceil _
  rw [div_le_iff₀ hsprQ] at h1
  have h2 : sr_num_scans_channel ch d r ≤
      sr_num_reads ch d r hint * sr_scans_per_read ch d r hint := by exact_mod_cast h1
  have hch : (0 : ℤ) ≤ (ch : ℤ) := Int.natCast_nonneg ch
  unfold sr_num_total_scans
  calc sr_num_scans_channel ch d r * (ch : ℤ)
      ≤ sr_num_reads ch d r hint * sr_scans_per_read ch d r hint * (ch : ℤ) :=
        mul_le_mul_of_nonneg_right h2 hch
    _ = sr_scans_per_read ch d r hint * (ch : ℤ) * sr_num_reads ch d r hint := by ring

/-- The adjusted duration of the `StreamRead` planner covers the requested
duration. -/
theorem sr_duration_ge (ch : ℕ) (d r : ℚ) (hch : 1 ≤ ch) (hr : 0 < r) :
    d ≤ sr_scan_duration ch d r := by
  have hch0 : (0 : ℚ) < (ch : ℚ) := by exact_mod_cast Nat.pos_of_ne_zero (by omega)
  have h1 : r * d ≤ (sr_num_total_scans0 d r : ℚ) := by
    unfold sr_num_total_scans0
    exact Int.le_ceil _
  have h2 : (sr_num_total_scans0 d r : ℚ) / (ch : ℚ) ≤ (sr_num_scans_channel ch d r : ℚ) := by
    unfold sr_num_scans_channel
    exact Int.le_ceil _
  rw [div_le_iff₀ hch0] at h2
  have h4 : r * d ≤ (sr_num_total_scans ch d r : ℚ) := by
    unfold sr_num_total_scans
    push_cast
    calc r * d ≤ (sr_num_total_scans0 d r : ℚ) := h1
      _ ≤ (sr_num_scans_channel ch d r : ℚ) * (ch : ℚ) := h2
  unfold sr_scan_duration
  rw [le_div_iff₀ hr]
  linarith

/-- Sample count of the `StreamIn` planner is a multiple of the channel
count. -/
theorem si_total_mod (ch : ℕ) (d r : ℚ) : si_num_samples ch d r % (ch : ℤ) = 0 := by
  unfold si_num_samples
  exact Int.mul_emod_left _ _

/-- With a positive resolved scans-per-read, the planned reads cover the
sample count of the `StreamIn` planner. -/
theorem si_cover (ch : ℕ) (d r : ℚ) (hint : Option ℤ)
    (hspr : 0 < si_scans_per_read ch d r hint) :
    si_num_samples ch d r ≤
      si_scans_per_read ch d r hint * ch * si_num_reads ch d r hint := by
  have hsprQ : (0 : ℚ) < (si_scans_per_read ch d r hint : ℚ) := by exact_mod_cast hspr
  have h1 : (si_num_scans ch d r : ℚ) / (si_scans_per_read ch d r hint : ℚ) ≤
      (si_num_reads ch d r hint : ℚ) := by
    unfold si_num_reads
    exact Int.le_ceil _
  rw [div_le_iff₀ hsprQ] at h1
  have h2 : si_num_scans ch d r ≤
      si_num_reads ch d r hint * si_scans_per_read ch d r hint := by exact_mod_cast h1
  have hch : (0 : ℤ) ≤ (ch : ℤ) := Int.natCast_nonneg ch
  unfold si_num_samples
  calc si_num_scans ch d r * (ch : ℤ)
      ≤ si_num_reads ch d r hint * si_scans_per_read ch d r hint * (ch : ℤ) :=
        mul_le_mul_of_nonneg_right h2 hch
    _ = si_scans_per_read ch d r hint * (ch : ℤ) * si_num_reads ch d r hint := by ring

/-- The adjusted duration of the `StreamIn` planner covers the requested
duration. -/
theorem si_duration_ge (ch : ℕ) (d r : ℚ) (hch : 1 ≤ ch) (hr : 0 < r) :
    d ≤ si_duration ch d r := by
  have hch0 : (0 : ℚ) < (ch : ℚ) := by exact_mod_cast Nat.pos_of_ne_zero (by omega)
  have heq : si_duration ch d r = (si_num_samples ch d r : ℚ) / r := by
    unfold si_duration si_scan_rate si_num_samples
    rw [div_div_eq_mul_div]
    push_cast
    ring
  have h1 : r * d ≤ (si_num_samples0 d r : ℚ) := by
    unfold si_num_samples0
    exact Int.le_ceil _
  have h2 : (si_num_samples0 d r : ℚ) / (ch : ℚ) ≤ (si_num_scans ch d r : ℚ) := by
    unfold si_num_scans
    exact Int.le_ceil _
  rw [div_le_iff₀ hch0] at h2
  have h4 : r * d ≤ (si_num_samples ch d r : ℚ) := by
    unfold si_num_samples
    push_cast
    calc r * d ≤ (si_num_samples0 d r : ℚ) := h1
      _ ≤ (si_num_scans ch d r : ℚ) * (ch : ℚ) := h2
  rw [heq, le_div_iff₀ hr]
  linarith

/-- C8 (amended): every plan computed from `channel_count ≥ 1`,
`requested_duration_s > 0` and `total_rate_hz > 0` satisfies
`total_scan_count % channel_count = 0` and
`effective_duration_s ≥ requested_duration_s`, and — whenever the resolved
scans-per-read is positive —
`scans_per_read * channel_count * read_count ≥ total_scan_count` (the claimed
equality fails when the last read is partial). -/
theorem claim_C8_amended :
    ∀ (ch : ℕ) (d r : ℚ) (hint : Option ℤ) (p : PlanStreamRead) (q : PlanStreamIn),
      1 ≤ ch → 0 < d → 0 < r →
      (plannerStreamRead ch d r hint = .ok p →
        p.num_total_scans % (ch : ℤ) = 0 ∧
        (0 < p.scans_per_read_per_channel →
          p.num_total_scans ≤ p.scans_per_read_per_channel * ch * p.num_reads) ∧
        d ≤ p.scan_duration) ∧
      (plannerStreamIn ch d r hint = .ok q →
        q.num_samples % (ch : ℤ) = 0 ∧
        (0 < q.scans_per_read → q.num_samples ≤ q.scans_per_read * ch * q.num_reads) ∧
        d ≤ q.duration) := by
  intro ch d r hint p q hch hd hr
  constructor
  · intro hok
    unfold plannerStreamRead at hok
    split_ifs at hok with h1 h2 h3 h4
    cases hok
    refine ⟨sr_total_mod ch d r, ?_, sr_duration_ge ch d r hch hr⟩
    intro hspr
    exact sr_cover ch d r hint hspr
  · intro hok
    unfold plannerStreamIn at hok
    split_ifs at hok with h1 h2 h3
    cases hok
    refine ⟨si_total_mod ch d r, ?_, si_duration_ge ch d r hch hr⟩
    intro hspr
    exact si_cover ch d r hint hspr

/-- Counterexample for C8 as stated: at `channel_count = 1`,
`requested_duration_s = 0.25`, `total_rate_hz = 10` and no hint, the plan has
`total_scan_count = 3` but `scans_per_read * channel_count * read_count =
2 * 1 * 2 = 4`, so the claimed product equality fails. -/
theorem claim_C8_counterexample :
    plannerStreamRead 1 (1 / 4) 10 none =
      .ok { num_total_scans := 3, scan_duration := 3 / 10, scan_rate_per_channel := 10,
            scans_per_read_per_channel := 2, num_reads := 2 } ∧
    ¬ ((3 : ℤ) = 2 * 1 * 2) := by
  refine ⟨?_, by decide⟩
  have h0 : sr_num_total_scans0 (1 / 4) 10 = 3 := by
    unfold sr_num_total_scans0
    apply ceil_rat_eq <;> norm_num
  have h1 : sr_num_scans_channel 1 (1 / 4) 10 = 3 := by
    unfold sr_num_scans_channel
    rw [h0]
    apply ceil_rat_eq <;> norm_num
  have h2 : sr_num_total_scans 1 (1 / 4) 10 = 3 := by
    unfold sr_num_total_scans
    rw [h1]; norm_num
  have h3 : sr_scan_duration 1 (1 / 4) 10 = 3 / 10 := by
    unfold sr_scan_duration
    rw [h2]; norm_num
  have h4 : sr_scan_rate_per_channel 1 (1 / 4) 10 = 10 := by
    unfold sr_scan_rate_per_channel
    rw [h1, h3]; norm_num
  have h5 : sr_scans_per_read 1 (1 / 4) 10 none = 2 := by
    unfold sr_scans_per_read pyIntTrunc
    simp only [Option.getD_none]
    rw [h4, if_pos (by norm_num)]
    apply floor_rat_eq <;> norm_num
  have h6 : sr_num_reads 1 (1 / 4) 10 none = 2 := by
    unfold sr_num_reads
    rw [h1, h5]
    apply ceil_rat_eq <;> norm_num
  unfold plannerStreamRead
  rw [if_neg (by norm_num), if_neg (by norm_num), if_neg (by rw [h3]; norm_num),
    if_neg (by rw [h5]; norm_num), h2, h3, h4, h5, h6]

/-- Witness for C8 (amended) on the default scenario plan. -/
theorem claim_C8_witness :
    (100000 : ℤ) % ((2 : ℕ) : ℤ) = 0 ∧
    (100000 : ℤ) ≤ 50000 * ((2 : ℕ) : ℤ) * 1 ∧
    (1 : ℚ) ≤ 1 := by
  obtain ⟨hsr, _⟩ := claim_C8_amended 2 1 100000 none
    { num_total_scans := 100000, scan_duration := 1, scan_rate_per_channel := 50000,
      scans_per_read_per_channel := 50000, num_reads := 1 }
    { scan_rate := 50000, num_samples := 100000, num_scans := 50000, duration := 1,
      scans_per_read := 50000, num_reads := 1 }
    (by norm_num) (by norm_num) (by norm_num)
  obtain ⟨a, b, c⟩ := hsr sr_eval_default
  exact ⟨a, b (by norm_num), c⟩
